import Mathlib

/-!
# Verification of the flood hazard / damage estimation engine

Shallow embedding of the quantitative core of the `rcp` repository:

* `climate_probability.py` — `ClimateEventAnalyzer` (event probabilities,
  seasonal probabilities);
* `backend/climate_probability_climada.py` — `ClimadaAPIClient` (simulated
  hazard curves) and `ClimadaFloodAnalyzer` (EAI, return periods from data);
* `backend/isimip_probability.py` — `ISIMIPDataProcessor.calculate_return_levels`;
* `backend/flood_damage_library/core/damage_calculator.py` and
  `enhanced_damage_calculator.py` — depth–damage interpolation.

Python floats are modelled as exact rationals (`ℚ`); external numeric-library
calls (`numpy.log10`, `scipy.stats.genextreme.fit` / `.ppf`) are modelled as
explicit function parameters; `numpy.random` draws are explicit inputs.
Python exceptions are modelled with `Except` over the `PyError` type below.
-/

/-- Exceptions that the embedded code can raise.  `valueError` models Python's
`ValueError`, `zeroDivisionError` Python's `ZeroDivisionError`, and
`calculationError` the repository's typed `CalculationError`
(raised in `FloodDamageCalculator._interpolate_damage_ratio`). -/
inductive PyError where
  | valueError
  | zeroDivisionError
  | calculationError
  deriving DecidableEq, Repr

deriving instance DecidableEq for Except

/-- Python's `str.lower()`, used by `calculate_event_probability` on the event
type key: lower-case each character of the string. -/
def str_lower (s : String) : String :=
  ⟨s.data.map Char.toLower⟩

/-! ## `climate_probability.py` — `ClimateEventAnalyzer` -/

/-- One processed day of historical data.  The source keeps a `date` column and
derives the calendar month from it (`df['date'].dt.month`); the embedding keeps
the derived month directly together with the daily rainfall in mm. -/
structure ClimateDay where
  month : ℕ
  rainfall : ℚ
  deriving DecidableEq, Repr

/-- Embedding of `ClimateEventAnalyzer.THRESHOLDS['heavy_rainfall']` (mm per day). -/
def heavy_rainfall_threshold : ℚ := 100

/-- Embedding of `ClimateEventAnalyzer.THRESHOLDS['extreme_rainfall']` (mm per day). -/
def extreme_rainfall_threshold : ℚ := 200

/-- Embedding of `ClimateEventAnalyzer.THRESHOLDS['flood_rainfall']` (mm in 24 hours). -/
def flood_rainfall_threshold : ℚ := 150

/-- Embedding of `ClimateEventAnalyzer.calculate_event_probability` (lines 73–101).

The analyzer state `self.event_counts` is a `defaultdict(int)` read through
`.get(event_type.lower(), 0)`; it is modelled as the total function
`event_counts : String → ℕ` (an absent key reads as `0`).  `self.total_days`
is `total_days`.  The body is:

* `if self.total_days == 0: return 0.0`;
* `daily_probability = event_count / total_days`;
* `probability_no_events = (1 - daily_probability) ** time_window`;
* `return min(1 - probability_no_events, 1.0)`. -/
def calculate_event_probability (event_counts : String → ℕ) (total_days : ℕ)
    (event_type : String) (time_window : ℕ) : ℚ :=
  if total_days = 0 then 0
  else
    let event_count := event_counts (str_lower event_type)
    let daily_probability : ℚ := (event_count : ℚ) / (total_days : ℚ)
    let probability_no_events := (1 - daily_probability) ^ time_window
    let probability_at_least_one := 1 - probability_no_events
    min probability_at_least_one 1

/-- The per-season month table in `ClimateEventAnalyzer.get_seasonal_probability`
(lines 142–146); an unknown season key is `none` (the source raises
`ValueError`). -/
def season_months (season : String) : Option (List ℕ) :=
  if season = "northeast_monsoon" then some [11, 12, 1, 2, 3]
  else if season = "southwest_monsoon" then some [5, 6, 7, 8, 9]
  else if season = "inter_monsoon" then some [4, 10]
  else none

/-- The event counting block of `get_seasonal_probability` (lines 163–170):
count of season rows whose rainfall reaches the event type's threshold;
any other event type leaves the count at `0`. -/
def season_event_count (rows : List ClimateDay) (event_type : String) : ℕ :=
  if event_type = "heavy_rainfall" then
    (rows.filter fun r => heavy_rainfall_threshold ≤ r.rainfall).length
  else if event_type = "extreme_rainfall" then
    (rows.filter fun r => extreme_rainfall_threshold ≤ r.rainfall).length
  else if event_type = "flood" then
    (rows.filter fun r => flood_rainfall_threshold ≤ r.rainfall).length
  else 0

/-- Embedding of `ClimateEventAnalyzer.get_seasonal_probability` (lines 123–172).

* `historical_data is None` (or no `date` column) returns `0.0` — the `none`
  case of the `Option` argument;
* an unknown season raises `ValueError`;
* otherwise the data is restricted to the season's calendar months,
  an empty restriction returns `0.0`, and a nonempty one returns
  `event_count / len(season_data)` directly. -/
def get_seasonal_probability (historical_data : Option (List ClimateDay))
    (event_type season : String) : Except PyError ℚ :=
  match historical_data with
  | none => .ok 0
  | some rows =>
    match season_months season with
    | none => .error .valueError
    | some months =>
      let season_data := rows.filter fun r => months.contains r.month
      if season_data.length = 0 then .ok 0
      else .ok ((season_event_count season_data event_type : ℚ) / (season_data.length : ℚ))

/-! ## `flood_damage_library` — depth–damage interpolation -/

/-- The bracket search performed by `scipy.interpolate.interp1d(kind='linear')`
once the query depth is strictly above the first tabulated depth: walk the
remaining `(depth, ratio)` points; on the first point `(d₁, r₁)` with
`d ≤ d₁`, linearly interpolate between the previous point `(d₀, r₀)` and it;
past the last point, return the last ratio (the `flood_depth >= depths[-1]`
branch of the source / `interp1d`'s upper `fill_value`). -/
def interp_from : ℚ × ℚ → List (ℚ × ℚ) → ℚ → ℚ
  | (_, r0), [], _ => r0
  | (d0, r0), (d1, r1) :: rest, d =>
    if d ≤ d1 then r0 + (r1 - r0) * (d - d0) / (d1 - d0)
    else interp_from (d1, r1) rest d

/-- Linear interpolation with boundary clamping over a nonempty table of
`(depth, damage_ratio)` points, as performed by both damage calculators:
a depth at or below the first tabulated depth returns the first ratio
(`flood_depth <= depths[0]` branch / `interp1d`'s lower `fill_value`),
otherwise `interp_from` finds the bracketing pair. -/
def linear_interp (p0 : ℚ × ℚ) (rest : List (ℚ × ℚ)) (d : ℚ) : ℚ :=
  if d ≤ p0.1 then p0.2 else interp_from p0 rest d

/-- Embedding of `FloodDamageCalculator._interpolate_damage_ratio`
(`core/damage_calculator.py`, lines 258–276).  The damage function is the
ordered list of `(depth, damage_ratio)` rows of the source's DataFrame.
Fewer than 2 rows raises the typed `CalculationError`; otherwise the depth is
clamped at the table bounds and linearly interpolated in between. -/
def interpolate_damage_ratio (damage_function : List (ℚ × ℚ)) (flood_depth : ℚ) :
    Except PyError ℚ :=
  match damage_function with
  | p0 :: p1 :: rest => .ok (linear_interp p0 (p1 :: rest) flood_depth)
  | _ => .error .calculationError

/-- One row of the enhanced calculator's `damage_functions` DataFrame
(`enhanced_damage_calculator.py`): a depth–damage control point keyed by
building type and country code. -/
structure DamageFnRow where
  building_type : String
  country_code : String
  depth_m : ℚ
  damage_ratio : ℚ
  deriving DecidableEq, Repr

/-- Embedding of `EnhancedFloodDamageCalculator._get_damage_ratio`
(`core/enhanced_damage_calculator.py`, lines 308–338).

* filter rows to the requested building type with country code in
  `{country_code, 'DEFAULT'}`;
* no row → generic fallback `min(1.0, depth * 0.3)`;
* prefer country-specific rows when any exist;
* a single remaining row → its ratio (`len(depths) == 1` branch);
* otherwise `interp1d(..., bounds_error=False, fill_value=(ratios[0], ratios[-1]))`,
  i.e. clamped linear interpolation. -/
def get_damage_ratio (damage_functions : List DamageFnRow) (depth : ℚ)
    (building_type country_code : String) : ℚ :=
  let mask := damage_functions.filter fun r =>
    r.building_type == building_type &&
      (r.country_code == country_code || r.country_code == "DEFAULT")
  match mask with
  | [] => min 1 (depth * (3 / 10))
  | m0 :: mrest =>
    let country_specific := (m0 :: mrest).filter fun r => r.country_code == country_code
    let relevant := if country_specific.isEmpty then m0 :: mrest else country_specific
    match relevant with
    | [] => 0  -- unreachable: `relevant` is one of two nonempty lists
    | [r] => r.damage_ratio
    | r :: r1 :: rs =>
      linear_interp (r.depth_m, r.damage_ratio)
        ((r1 :: rs).map fun q => (q.depth_m, q.damage_ratio)) depth

/-! ## `backend/climate_probability_climada.py` -/

/-- The climate-scenario multiplier dictionary used in
`ClimadaAPIClient.get_flood_hazard_malaysia` (lines 173–179) and in
`calculate_isimip_flood_risk`; an unknown scenario falls back to `1.0`
(`.get(scenario, 1.0)`). -/
def scenario_factor (scenario : String) : ℚ :=
  if scenario = "historical" then 1
  else if scenario = "rcp26" then 11 / 10
  else if scenario = "rcp45" then 5 / 4
  else if scenario = "rcp60" then 27 / 20
  else if scenario = "rcp85" then 3 / 2
  else 1

/-- The location-specific intensity multiplier chain of
`get_flood_hazard_malaysia` (lines 153–170): country-level rows are scaled by
`0.85`, named high-risk states by their documented factors, and the remaining
states (`Penang`, `Sabah`, `Sarawak`) by `1.00`.  A location matching no
branch leaves the intensity unchanged (factor `1`). -/
def state_risk_multiplier (location loc_type : String) : ℚ :=
  if loc_type = "country" then 17 / 20
  else if location = "Kelantan" then 27 / 20
  else if location = "Terengganu" then 13 / 10
  else if location = "Pahang" then 5 / 4
  else if location = "Johor" then 23 / 20
  else if location = "Selangor" then 11 / 10
  else if location = "Perak" then 21 / 20
  else 1

/-- The per-row flood intensity computed inside `get_flood_hazard_malaysia`
(lines 150–192) for one location and one return period:

* `base_intensity = np.log10(rp) * 0.5` — `log10` is `numpy`'s logarithm,
  passed as an explicit function parameter;
* `intensity = base_intensity + np.random.normal(0, 0.2)` — the random draw
  is the explicit input `noise`;
* the location multiplier, then the scenario factor, are multiplied in;
* the stored intensity is `max(0.1, intensity)`. -/
def flood_intensity_m (log10 : ℕ → ℚ) (noise : ℚ)
    (location loc_type scenario : String) (rp : ℕ) : ℚ :=
  let base_intensity := log10 rp * (1 / 2)
  let intensity0 := base_intensity + noise
  let intensity1 := intensity0 * state_risk_multiplier location loc_type
  let intensity2 := intensity1 * scenario_factor scenario
  max (1 / 10) intensity2

/-- One row of the hazard DataFrame consumed by
`ClimadaFloodAnalyzer.calculate_expected_annual_impact`; only the columns the
calculation reads are kept (`location`, `return_period`, `flood_intensity_m`,
`annual_probability`). -/
structure HazardRow where
  location : String
  return_period : ℕ
  flood_intensity_m : ℚ
  annual_probability : ℚ
  deriving DecidableEq, Repr

/-- The per-row damage function inside `calculate_expected_annual_impact`
(line 516): `damage_ratio = min(1.0, intensity / 3.0)`. -/
def eai_damage_ratio (intensity : ℚ) : ℚ :=
  min 1 (intensity / 3)

/-- The `state_exposure_ratios` dictionary of
`calculate_expected_annual_impact` (lines 494–506), read with default `0.04`
for a state not in the table. -/
def state_exposure_ratio (location : String) : ℚ :=
  if location = "Selangor" then 28 / 100
  else if location = "Johor" then 14 / 100
  else if location = "Penang" then 9 / 100
  else if location = "Sarawak" then 10 / 100
  else if location = "Sabah" then 8 / 100
  else if location = "Perak" then 8 / 100
  else if location = "Pahang" then 8 / 100
  else if location = "Kelantan" then 6 / 100
  else if location = "Terengganu" then 5 / 100
  else 4 / 100

/-- The exposure resolution of `calculate_expected_annual_impact`
(lines 486–506): the country-level location receives the total exposure,
a state receives `total_exposure * state_exposure_ratios.get(location, 0.04)`. -/
def location_exposure (total_exposure : ℚ) (location : String) : ℚ :=
  if location = "Malaysia (Country)" then total_exposure
  else total_exposure * state_exposure_ratio location

/-- One entry of the `impacts` breakdown list built by
`calculate_expected_annual_impact` (lines 523–529). -/
structure ImpactRow where
  return_period : ℕ
  probability : ℚ
  flood_intensity_m : ℚ
  damage_ratio : ℚ
  impact_usd : ℚ
  deriving DecidableEq, Repr

/-- The result dictionary of `calculate_expected_annual_impact`
(lines 531–537). -/
structure EAIResult where
  location : String
  expected_annual_impact_usd : ℚ
  exposure_usd : ℚ
  eai_ratio : ℚ
  return_period_impacts : List ImpactRow
  deriving DecidableEq, Repr

/-- Embedding of `ClimadaFloodAnalyzer.calculate_expected_annual_impact` (lines 461–537).

`hazard_data` and the loaded exposure total (`exposure_data['total_exposure_usd']`)
are the object state, passed explicitly.  The body:

* restrict the hazard table to the requested location; an empty restriction
  returns the empty dictionary `{}` (`.ok none`);
* resolve the location exposure (`location_exposure`);
* loop over the rows accumulating `eai += probability * impact` with
  `impact = location_exposure * damage_ratio` and collecting the breakdown;
* build the result with `eai_ratio = eai / location_exposure` — an unguarded
  float division, which in Python raises `ZeroDivisionError` when the
  resolved exposure is zero.  No exposure-sign check exists in the source. -/
def calculate_expected_annual_impact (hazard_data : List HazardRow)
    (total_exposure : ℚ) (location : String) : Except PyError (Option EAIResult) :=
  let loc_hazard := hazard_data.filter fun r => r.location == location
  if loc_hazard.isEmpty then .ok none
  else
    let exposure := location_exposure total_exposure location
    let eai := loc_hazard.foldl
      (fun acc row => acc + row.annual_probability *
        (exposure * eai_damage_ratio row.flood_intensity_m)) 0
    let impacts := loc_hazard.map fun row =>
      { return_period := row.return_period
        probability := row.annual_probability
        flood_intensity_m := row.flood_intensity_m
        damage_ratio := eai_damage_ratio row.flood_intensity_m
        impact_usd := exposure * eai_damage_ratio row.flood_intensity_m : ImpactRow }
    if exposure = 0 then .error .zeroDivisionError
    else .ok (some
      { location := location
        expected_annual_impact_usd := eai
        exposure_usd := exposure
        eai_ratio := eai / exposure
        return_period_impacts := impacts })

/-! ## GEV return levels (`backend/isimip_probability.py` and
`ClimadaFloodAnalyzer.calculate_return_period_from_data`) -/

/-- The GEV parameter triple produced by `scipy.stats.genextreme.fit`
(`shape`, `loc`, `scale` — `fit_gev_distribution`'s `c, loc, scale`). -/
structure GEVParams where
  shape : ℚ
  location : ℚ
  scale : ℚ
  deriving DecidableEq, Repr

/-- One row of the DataFrame returned by
`ISIMIPDataProcessor.calculate_return_levels` (lines 233–239). -/
structure ReturnLevelRow where
  return_period : ℕ
  return_level : ℚ
  annual_probability : ℚ
  ci_lower : ℚ
  ci_upper : ℚ
  deriving DecidableEq, Repr

/-- Embedding of `ISIMIPDataProcessor.calculate_return_levels` (lines 200–241).

`ppf` is `scipy.stats.genextreme.ppf` — the GEV quantile function, an external
library call passed as an explicit function parameter.  For each requested
return period `rp`:

* `exceedance_prob = 1.0 / rp`; `non_exceedance_prob = 1 - exceedance_prob`;
* `return_level = genextreme.ppf(non_exceedance_prob, shape, loc, scale)`;
* `ci_lower = return_level * 0.8`; `ci_upper = return_level * 1.2`;
* `annual_probability = 1.0 / rp`.

Rows are produced in the supplied order. -/
def calculate_return_levels (ppf : GEVParams → ℚ → ℚ) (gev_params : GEVParams)
    (return_periods : List ℕ) : List ReturnLevelRow :=
  return_periods.map fun (rp : ℕ) =>
    let exceedance_prob : ℚ := 1 / (rp : ℚ)
    let non_exceedance_prob := 1 - exceedance_prob
    let return_level := ppf gev_params non_exceedance_prob
    { return_period := rp
      return_level := return_level
      annual_probability := 1 / (rp : ℚ)
      ci_lower := return_level * (8 / 10)
      ci_upper := return_level * (12 / 10) }

/-- One row of the DataFrame returned by
`ClimadaFloodAnalyzer.calculate_return_period_from_data` (lines 407–412).
The constant `method` string column is omitted. -/
structure RPFromDataRow where
  return_period_years : ℕ
  flood_magnitude : ℚ
  annual_probability : ℚ
  deriving DecidableEq, Repr

/-- Embedding of `ClimadaFloodAnalyzer.calculate_return_period_from_data` (lines 373–418).

`fit` models `scipy.stats.genextreme.fit` and `ppf` models
`scipy.stats.genextreme.ppf`, both external library calls passed as explicit
function parameters.  The body:

* keep the strictly positive events and sort them descending
  (`flood_events[flood_events > 0].sort_values(ascending=False)`);
* fewer than 10 such events: emit a `warnings.warn` (no exception) and return
  an **empty DataFrame** — the empty list here, not a typed error;
* otherwise fit the GEV and tabulate the fixed return periods
  `[2, 5, 10, 25, 50, 100, 250, 500, 1000]` with
  `magnitude = ppf(1 - 1/rp)` and `annual_probability = 1/rp`.

The source wraps the fit in `try/except` returning the empty DataFrame on any
exception; with `fit`/`ppf` total functions that branch is dead here. -/
def calculate_return_period_from_data (fit : List ℚ → GEVParams)
    (ppf : GEVParams → ℚ → ℚ) (flood_events : List ℚ) : List RPFromDataRow :=
  let events := (flood_events.filter fun x => 0 < x).insertionSort (· ≥ ·)
  if events.length < 10 then []
  else
    let params := fit events
    ([2, 5, 10, 25, 50, 100, 250, 500, 1000] : List ℕ).map fun rp =>
      { return_period_years := rp
        flood_magnitude := ppf params (1 - 1 / (rp : ℚ))
        annual_probability := 1 / (rp : ℚ) }

/-! ## Claim C3 — event probability formula -/

/-- Claim C3: For every event type and time window, `calculate_event_probability`
returns `0` when `total_days = 0` instead of faulting; otherwise it returns
`1 - (1 - event_count/total_days) ^ time_window` clamped to at most `1`
(with `event_count` read under the lower-cased key), and in all cases the
result is at most `1`. -/
theorem calculate_event_probability_formula (event_counts : String → ℕ)
    (total_days : ℕ) (event_type : String) (time_window : ℕ) :
    (total_days = 0 →
      calculate_event_probability event_counts total_days event_type time_window = 0) ∧
    (total_days ≠ 0 →
      calculate_event_probability event_counts total_days event_type time_window =
        min (1 - (1 - (event_counts (str_lower event_type) : ℚ) / (total_days : ℚ))
          ^ time_window) 1) ∧
    calculate_event_probability event_counts total_days event_type time_window ≤ 1 := by
  unfold calculate_event_probability
  refine ⟨fun h => by simp [h], fun h => by simp [h], ?_⟩
  split
  · norm_num
  · exact min_le_right _ _

/-- Witness for C3, end-to-end scenario A: 150 flood days over 3650 observed
days and a 365-day window give `1 - (3500/3650)^365`, which exceeds
`0.999996`. -/
theorem calculate_event_probability_formula_witness :
    (3650 : ℕ) ≠ 0 ∧
    calculate_event_probability (fun s => if s = "flood" then 150 else 0) 3650 "flood" 365 =
      1 - (1 - (150 : ℚ) / 3650) ^ 365 ∧
    999996 / 1000000 <
      calculate_event_probability (fun s => if s = "flood" then 150 else 0) 3650 "flood" 365 := by
  have hs : str_lower "flood" = "flood" := by decide
  have h := (calculate_event_probability_formula
    (fun s => if s = "flood" then 150 else 0) 3650 "flood" 365).2.1 (by norm_num)
  simp only [hs] at h
  norm_num at h
  refine ⟨by norm_num, ?_, ?_⟩
  · rw [h]; norm_num
  · rw [h]; norm_num

/-! ## Claim C10 — unknown event types -/

/-- Claim C10: An event type whose (lower-cased) key has no recorded
occurrences — in particular any misspelled or never-observed event name,
which the `defaultdict` / `.get(..., 0)` lookup maps to count `0` — yields
probability exactly `0` for every time window, with no error raised
(the embedded function is total). -/
theorem unknown_event_type_zero_probability (event_counts : String → ℕ)
    (total_days : ℕ) (event_type : String) (time_window : ℕ)
    (h : event_counts (str_lower event_type) = 0) :
    calculate_event_probability event_counts total_days event_type time_window = 0 := by
  unfold calculate_event_probability
  split
  · rfl
  · simp [h]

/-- Witness for C10: the misspelled event name `"floodd"` is absent from a
count table that only records `"flood"`, and its probability is `0`. -/
theorem unknown_event_type_zero_probability_witness :
    (fun s => if s = "flood" then 150 else 0 : String → ℕ) (str_lower "floodd") = 0 ∧
    calculate_event_probability (fun s => if s = "flood" then 150 else 0) 3650 "floodd" 365 = 0 :=
  ⟨by decide, unknown_event_type_zero_probability _ 3650 "floodd" 365 (by decide)⟩

/-! ## Claim C8 — monotonicity in the time window -/

/-- Claim C8: For a fixed daily probability strictly between 0 and 1 (that is,
`0 < event_count < total_days`), the event probability is monotone
non-decreasing in the time window, and every result lies in `[0, 1]`. -/
theorem event_probability_monotone_in_window (event_counts : String → ℕ)
    (total_days : ℕ) (event_type : String) (w1 w2 : ℕ)
    (hpos : 0 < event_counts (str_lower event_type))
    (hlt : event_counts (str_lower event_type) < total_days)
    (hw : w1 ≤ w2) :
    calculate_event_probability event_counts total_days event_type w1 ≤
      calculate_event_probability event_counts total_days event_type w2 ∧
    0 ≤ calculate_event_probability event_counts total_days event_type w1 ∧
    calculate_event_probability event_counts total_days event_type w1 ≤ 1 ∧
    0 ≤ calculate_event_probability event_counts total_days event_type w2 ∧
    calculate_event_probability event_counts total_days event_type w2 ≤ 1 := by
  have hd : total_days ≠ 0 := by omega
  have hdq : (0 : ℚ) < (total_days : ℚ) := by
    exact_mod_cast Nat.pos_of_ne_zero hd
  have hp0 : (0 : ℚ) < (event_counts (str_lower event_type) : ℚ) / (total_days : ℚ) :=
    div_pos (by exact_mod_cast hpos) hdq
  have hp1 : (event_counts (str_lower event_type) : ℚ) / (total_days : ℚ) < 1 :=
    (div_lt_one hdq).mpr (by exact_mod_cast hlt)
  set p : ℚ := (event_counts (str_lower event_type) : ℚ) / (total_days : ℚ) with hp
  have hq0 : (0 : ℚ) ≤ 1 - p := by linarith
  have hq1 : 1 - p ≤ 1 := by linarith
  have heval : ∀ w : ℕ,
      calculate_event_probability event_counts total_days event_type w = 1 - (1 - p) ^ w := by
    intro w
    unfold calculate_event_probability
    rw [if_neg hd, min_eq_left]
    have : (0 : ℚ) ≤ (1 - p) ^ w := pow_nonneg hq0 w
    linarith
  have hbound : ∀ w : ℕ,
      0 ≤ calculate_event_probability event_counts total_days event_type w ∧
        calculate_event_probability event_counts total_days event_type w ≤ 1 := by
    intro w
    rw [heval w]
    have h1 : (1 - p) ^ w ≤ 1 := pow_le_one₀ hq0 hq1
    have h2 : (0 : ℚ) ≤ (1 - p) ^ w := pow_nonneg hq0 w
    constructor <;> linarith
  refine ⟨?_, (hbound w1).1, (hbound w1).2, (hbound w2).1, (hbound w2).2⟩
  rw [heval w1, heval w2]
  have := pow_le_pow_of_le_one hq0 hq1 hw
  linarith

/-- Witness for C8: with 150 flood days over 3650 days, a 30-day window is at
most as likely as a 365-day window, and both probabilities are in `[0, 1]`. -/
theorem event_probability_monotone_in_window_witness :
    0 < (fun s => if s = "flood" then 150 else 0 : String → ℕ) (str_lower "flood") ∧
    (fun s => if s = "flood" then 150 else 0 : String → ℕ) (str_lower "flood") < 3650 ∧
    (30 : ℕ) ≤ 365 ∧
    (calculate_event_probability (fun s => if s = "flood" then 150 else 0) 3650 "flood" 30 ≤
      calculate_event_probability (fun s => if s = "flood" then 150 else 0) 3650 "flood" 365 ∧
    0 ≤ calculate_event_probability (fun s => if s = "flood" then 150 else 0) 3650 "flood" 30 ∧
    calculate_event_probability (fun s => if s = "flood" then 150 else 0) 3650 "flood" 30 ≤ 1 ∧
    0 ≤ calculate_event_probability (fun s => if s = "flood" then 150 else 0) 3650 "flood" 365 ∧
    calculate_event_probability (fun s => if s = "flood" then 150 else 0) 3650 "flood" 365 ≤ 1) :=
  ⟨by decide, by decide, by decide,
    event_probability_monotone_in_window _ 3650 "flood" 30 365 (by decide) (by decide) (by decide)⟩

/-! ## Claim C9 — seasonal probability -/

/-- The seasonal event count never exceeds the number of season days: each
branch counts a filtered sublist. -/
lemma season_event_count_le_length (rows : List ClimateDay) (event_type : String) :
    season_event_count rows event_type ≤ rows.length := by
  unfold season_event_count
  repeat' split
  all_goals first
    | exact List.length_filter_le _ _
    | exact Nat.zero_le _

/-- Claim C9, counterexample: On two northeast-monsoon days with one flood
event, `get_seasonal_probability` returns the raw frequency `1/2`, while the
window formula of the unrestricted variant applied to the restricted counts
(1 event over 2 days, default 365-day window) gives `1 - (1/2)^365 ≠ 1/2`:
the seasonal variant does **not** apply the window formula. -/
theorem get_seasonal_probability_not_window_formula :
    get_seasonal_probability (some [⟨11, 200⟩, ⟨11, 0⟩]) "flood" "northeast_monsoon" =
      .ok (1 / 2) ∧
    calculate_event_probability (fun s => if s = "flood" then 1 else 0) 2 "flood" 365 ≠
      1 / 2 := by
  constructor
  · rfl
  · have hs : str_lower "flood" = "flood" := by decide
    unfold calculate_event_probability
    rw [hs]
    norm_num

/-- Claim C9, amended: For every valid season and each of the three tracked
event types, the seasonal probability equals the unrestricted variant
(`calculate_event_probability`) applied to the month-restricted data with a
time window of **1 day** — the raw daily frequency
`event_count / season_day_count` — rather than the 365-day window
exponentiation. -/
theorem get_seasonal_probability_eq_window_one (rows : List ClimateDay)
    (event_type season : String) (months : List ℕ)
    (hs : season_months season = some months)
    (het : event_type = "flood" ∨ event_type = "heavy_rainfall" ∨
      event_type = "extreme_rainfall") :
    get_seasonal_probability (some rows) event_type season =
      .ok (calculate_event_probability
        (fun s => if s = event_type
          then season_event_count (rows.filter fun r => months.contains r.month) event_type
          else 0)
        (rows.filter fun r => months.contains r.month).length event_type 1) := by
  have hlow : str_lower event_type = event_type := by
    rcases het with h | h | h <;> subst h <;> decide
  simp only [get_seasonal_probability, hs]
  set sd := rows.filter fun r => months.contains r.month with hsd
  by_cases h0 : sd.length = 0
  · simp [calculate_event_probability, h0]
  · rw [if_neg h0]
    unfold calculate_event_probability
    rw [if_neg h0, hlow]
    simp only [if_pos rfl]
    have hlen : (0 : ℚ) < (sd.length : ℚ) := by
      exact_mod_cast Nat.pos_of_ne_zero h0
    have hcle : (season_event_count sd event_type : ℚ) / (sd.length : ℚ) ≤ 1 := by
      rw [div_le_one hlen]
      exact_mod_cast season_event_count_le_length sd event_type
    rw [pow_one]
    norm_num [min_eq_left, hcle]

/-- Witness for the amended C9 at a concrete season and data set. -/
theorem get_seasonal_probability_eq_window_one_witness :
    season_months "northeast_monsoon" = some [11, 12, 1, 2, 3] ∧
    get_seasonal_probability (some [⟨11, 200⟩, ⟨11, 0⟩]) "flood" "northeast_monsoon" =
      .ok (calculate_event_probability
        (fun s => if s = "flood"
          then season_event_count
            (([⟨11, 200⟩, ⟨11, 0⟩] : List ClimateDay).filter
              fun r => ([11, 12, 1, 2, 3] : List ℕ).contains r.month) "flood"
          else 0)
        ((([⟨11, 200⟩, ⟨11, 0⟩] : List ClimateDay).filter
          fun r => ([11, 12, 1, 2, 3] : List ℕ).contains r.month).length) "flood" 1) :=
  ⟨rfl, get_seasonal_probability_eq_window_one [⟨11, 200⟩, ⟨11, 0⟩] "flood"
    "northeast_monsoon" [11, 12, 1, 2, 3] rfl (Or.inl rfl)⟩

/-! ## Claim C4 — depth–damage interpolation policy -/

/-- A point strictly below the query depth is skipped by the bracket walk. -/
lemma interp_from_skip (p0 x : ℚ × ℚ) (xs : List (ℚ × ℚ)) (d : ℚ) (h : x.1 < d) :
    interp_from p0 (x :: xs) d = interp_from x xs d := by
  obtain ⟨d0, r0⟩ := p0
  obtain ⟨dx, rx⟩ := x
  simp only [interp_from]
  rw [if_neg (not_le.mpr h)]

/-- The bracket walk skips every point strictly below the query depth. -/
lemma interp_from_walk (qs : List (ℚ × ℚ)) :
    ∀ (q pivt : ℚ × ℚ) (rest : List (ℚ × ℚ)) (d : ℚ),
    (∀ x ∈ qs, x.1 < d) → pivt.1 < d →
    interp_from q (qs ++ pivt :: rest) d = interp_from pivt rest d := by
  induction qs with
  | nil =>
    intro q pivt rest d _ hp
    exact interp_from_skip q pivt rest d hp
  | cons q1 qs ih =>
    intro q pivt rest d hall hp
    rw [List.cons_append, interp_from_skip q q1 _ d (hall q1 (List.mem_cons_self _ _))]
    exact ih q1 pivt rest d (fun x hx => hall x (List.mem_cons_of_mem _ hx)) hp

/-- At the bracketing pair the walk returns the linear interpolant. -/
lemma interp_from_at_bracket (plo phi : ℚ × ℚ) (post : List (ℚ × ℚ)) (d : ℚ)
    (h : d ≤ phi.1) :
    interp_from plo (phi :: post) d =
      plo.2 + (phi.2 - plo.2) * (d - plo.1) / (phi.1 - plo.1) := by
  obtain ⟨di, ri⟩ := plo
  obtain ⟨dj, rj⟩ := phi
  simp only [interp_from]
  rw [if_pos h]

/-- A query depth at or above the last tabulated depth yields the last ratio. -/
lemma interp_from_past_end (mid : List (ℚ × ℚ)) :
    ∀ (p0 pn : ℚ × ℚ) (d : ℚ),
    (∀ x ∈ p0 :: mid, x.1 < pn.1) → pn.1 ≤ d →
    interp_from p0 (mid ++ [pn]) d = pn.2 := by
  induction mid with
  | nil =>
    intro p0 pn d hall hd
    obtain ⟨d0, r0⟩ := p0
    obtain ⟨dn, rn⟩ := pn
    have hd0 : d0 < dn := hall (d0, r0) (List.mem_cons_self _ _)
    simp only [List.nil_append, interp_from]
    split
    · next hle =>
      have hdn : d = dn := le_antisymm hle hd
      subst hdn
      have hne : d - d0 ≠ 0 := sub_ne_zero.mpr (ne_of_gt hd0)
      field_simp
    · rfl
  | cons q mid ih =>
    intro p0 pn d hall hd
    have hq : q.1 < pn.1 := hall q (List.mem_cons_of_mem _ (List.mem_cons_self _ _))
    rw [List.cons_append, interp_from_skip p0 q _ d (lt_of_lt_of_le hq hd)]
    exact ih q pn d (fun x hx => hall x (List.mem_cons_of_mem _ hx)) hd

/-- Unfolding of `interpolate_damage_ratio` on a table of at least two points. -/
lemma interpolate_damage_ratio_cons_cons (a b : ℚ × ℚ) (l : List (ℚ × ℚ)) (d : ℚ) :
    interpolate_damage_ratio (a :: b :: l) d = .ok (linear_interp a (b :: l) d) := rfl

/-- Fewer than two control points raise the typed `CalculationError`. -/
lemma interpolate_damage_ratio_short (df : List (ℚ × ℚ)) (d : ℚ) (h : df.length < 2) :
    interpolate_damage_ratio df d = .error .calculationError := by
  cases df with
  | nil => rfl
  | cons a t =>
    cases t with
    | nil => rfl
    | cons b l => simp only [List.length_cons] at h; omega

/-- Clamping below the table: a depth at or under the first tabulated depth
returns the first ratio. -/
lemma interpolate_damage_ratio_low (p0 : ℚ × ℚ) (rest : List (ℚ × ℚ)) (d : ℚ)
    (hne : rest ≠ []) (hd : d ≤ p0.1) :
    interpolate_damage_ratio (p0 :: rest) d = .ok p0.2 := by
  obtain ⟨b, l, rfl⟩ := List.exists_cons_of_ne_nil hne
  rw [interpolate_damage_ratio_cons_cons]
  unfold linear_interp
  rw [if_pos hd]

/-- Clamping above the table: a depth at or over the last tabulated depth
returns the last ratio, for a strictly depth-sorted table. -/
lemma interpolate_damage_ratio_high (pre : List (ℚ × ℚ)) (pn : ℚ × ℚ) (d : ℚ)
    (hne : pre ≠ [])
    (hpw : (pre ++ [pn]).Pairwise fun p q => p.1 < q.1) (hd : pn.1 ≤ d) :
    interpolate_damage_ratio (pre ++ [pn]) d = .ok pn.2 := by
  obtain ⟨p0, mid, rfl⟩ := List.exists_cons_of_ne_nil hne
  have hall : ∀ x ∈ p0 :: mid, x.1 < pn.1 := by
    intro x hx
    exact (List.pairwise_append.mp hpw).2.2 x hx pn (List.mem_cons_self _ _)
  have h0 : p0.1 < pn.1 := hall p0 (List.mem_cons_self _ _)
  rw [List.cons_append]
  cases mid with
  | nil =>
    rw [List.nil_append, interpolate_damage_ratio_cons_cons]
    unfold linear_interp
    rw [if_neg (not_le.mpr (lt_of_lt_of_le h0 hd))]
    exact congrArg _ (interp_from_past_end [] p0 pn d hall hd)
  | cons q mid =>
    have hshape : (q :: mid) ++ [pn] = q :: (mid ++ [pn]) := List.cons_append _ _ _
    rw [hshape, interpolate_damage_ratio_cons_cons]
    unfold linear_interp
    rw [if_neg (not_le.mpr (lt_of_lt_of_le h0 hd))]
    rw [← hshape]
    exact congrArg _ (interp_from_past_end (q :: mid) p0 pn d hall hd)

/-- Interpolation between the two bracketing points, for a strictly
depth-sorted table. -/
lemma interpolate_damage_ratio_bracket (pre : List (ℚ × ℚ)) (plo phi : ℚ × ℚ)
    (post : List (ℚ × ℚ)) (d : ℚ)
    (hpw : (pre ++ plo :: phi :: post).Pairwise fun p q => p.1 < q.1)
    (hlo : plo.1 < d) (hhi : d ≤ phi.1) :
    interpolate_damage_ratio (pre ++ plo :: phi :: post) d =
      .ok (plo.2 + (phi.2 - plo.2) * (d - plo.1) / (phi.1 - plo.1)) := by
  have hpre : ∀ x ∈ pre, x.1 < d := by
    intro x hx
    have hxlo : x.1 < plo.1 :=
      (List.pairwise_append.mp hpw).2.2 x hx plo (List.mem_cons_self _ _)
    exact lt_trans hxlo hlo
  cases pre with
  | nil =>
    rw [List.nil_append, interpolate_damage_ratio_cons_cons]
    unfold linear_interp
    rw [if_neg (not_le.mpr hlo)]
    exact congrArg _ (interp_from_at_bracket plo phi post d hhi)
  | cons q qs =>
    have hshape : ∃ b l, qs ++ plo :: phi :: post = b :: l := by
      cases qs with
      | nil => exact ⟨plo, phi :: post, rfl⟩
      | cons b l => exact ⟨b, l ++ plo :: phi :: post, rfl⟩
    obtain ⟨b, l, hb⟩ := hshape
    rw [List.cons_append, hb, interpolate_damage_ratio_cons_cons]
    unfold linear_interp
    rw [if_neg (not_le.mpr (hpre q (List.mem_cons_self _ _))), ← hb]
    rw [interp_from_walk qs q plo (phi :: post) d
      (fun x hx => hpre x (List.mem_cons_of_mem _ hx)) hlo]
    exact congrArg _ (interp_from_at_bracket plo phi post d hhi)

/-- The enhanced calculator's variant on a one-point damage function returns
that point's ratio as a plain value (no failure channel exists in its type). -/
lemma get_damage_ratio_single (r : DamageFnRow) (depth : ℚ) :
    get_damage_ratio [r] depth r.building_type r.country_code = r.damage_ratio := by
  unfold get_damage_ratio
  simp

/-- Claim C4, amended: For a strictly depth-sorted damage function with at
least two control points, `_interpolate_damage_ratio` clamps below the first
point, clamps above the last point, and linearly interpolates between the two
bracketing points; with fewer than two points it fails with the typed
`CalculationError`.  The enhanced calculator's `_get_damage_ratio` follows the
same clamp-and-interpolate policy but, on a one-point function, returns that
point's ratio instead of failing. -/
theorem damage_interpolation_spec :
    (∀ (df : List (ℚ × ℚ)) (d : ℚ), df.length < 2 →
      interpolate_damage_ratio df d = .error .calculationError) ∧
    (∀ (p0 : ℚ × ℚ) (rest : List (ℚ × ℚ)) (d : ℚ), rest ≠ [] → d ≤ p0.1 →
      interpolate_damage_ratio (p0 :: rest) d = .ok p0.2) ∧
    (∀ (pre : List (ℚ × ℚ)) (pn : ℚ × ℚ) (d : ℚ), pre ≠ [] →
      ((pre ++ [pn]).Pairwise fun p q => p.1 < q.1) → pn.1 ≤ d →
      interpolate_damage_ratio (pre ++ [pn]) d = .ok pn.2) ∧
    (∀ (pre : List (ℚ × ℚ)) (plo phi : ℚ × ℚ) (post : List (ℚ × ℚ)) (d : ℚ),
      ((pre ++ plo :: phi :: post).Pairwise fun p q => p.1 < q.1) →
      plo.1 < d → d ≤ phi.1 →
      interpolate_damage_ratio (pre ++ plo :: phi :: post) d =
        .ok (plo.2 + (phi.2 - plo.2) * (d - plo.1) / (phi.1 - plo.1))) ∧
    (∀ (r : DamageFnRow) (depth : ℚ),
      get_damage_ratio [r] depth r.building_type r.country_code = r.damage_ratio) :=
  ⟨interpolate_damage_ratio_short,
    interpolate_damage_ratio_low,
    interpolate_damage_ratio_high,
    interpolate_damage_ratio_bracket,
    get_damage_ratio_single⟩

/-- Claim C4, counterexample: The claim's "a function with fewer than 2 points
fails with a typed error" does not hold of the enhanced calculator's
`_get_damage_ratio`, one of the two cited interpolators: on a one-point
damage function it returns the point's ratio as a plain value (its return
type has no failure channel), while `_interpolate_damage_ratio` does raise
the typed `CalculationError` on the same one-point table — the two cited
implementations disagree. -/
theorem one_point_damage_function_divergence :
    get_damage_ratio [⟨"residential", "US", 1, 1 / 2⟩] 5 "residential" "US" = 1 / 2 ∧
    interpolate_damage_ratio [(1, 1 / 2)] 5 = .error .calculationError := by
  constructor
  · rfl
  · rfl

/-- Witness for C4, end-to-end scenario B: points `[(0,0), (1,0.5), (2,1)]`
at depth `1.5` give ratio `0.75`, through the bracketing clause. -/
theorem damage_interpolation_spec_witness :
    ((([(0, 0)] : List (ℚ × ℚ)) ++ (1, 1 / 2) :: (2, 1) :: []).Pairwise
      fun p q : ℚ × ℚ => p.1 < q.1) ∧
    ((1 : ℚ), (1 / 2 : ℚ)).1 < 3 / 2 ∧ (3 / 2 : ℚ) ≤ ((2 : ℚ), (1 : ℚ)).1 ∧
    interpolate_damage_ratio [(0, 0), (1, 1 / 2), (2, 1)] (3 / 2) = .ok (3 / 4) := by
  refine ⟨by decide, by norm_num, by norm_num, ?_⟩
  have h := damage_interpolation_spec.2.2.2.1 [(0, 0)] (1, 1 / 2) (2, 1) [] (3 / 2)
    (by decide) (by norm_num) (by norm_num)
  rw [List.singleton_append] at h
  rw [h]
  norm_num

/-! ## Claims C1 and C6 — expected annual impact -/

/-- The source's `eai += probability * impact` accumulation loop equals the
sum of the mapped per-row terms. -/
lemma foldl_add_map_sum {α : Type} (f : α → ℚ) (l : List α) :
    l.foldl (fun acc x => acc + f x) 0 = (l.map f).sum := by
  rw [List.sum_eq_foldl, List.foldl_map]

/-- Claim C1: For every location with at least one hazard row and nonzero
resolved exposure, the EAI is exactly the sum over the location's rows of
`annual_probability * (exposure * damage_ratio)`, the per-return-period
breakdown (probability, intensity, ratio, impact) is preserved row by row,
and `eai_ratio` is the EAI divided by the exposure value. -/
theorem calculate_expected_annual_impact_spec (hazard_data : List HazardRow)
    (total_exposure : ℚ) (location : String)
    (hne : hazard_data.filter (fun r => r.location == location) ≠ [])
    (hexp : location_exposure total_exposure location ≠ 0) :
    calculate_expected_annual_impact hazard_data total_exposure location =
      .ok (some
        { location := location
          expected_annual_impact_usd :=
            ((hazard_data.filter fun r => r.location == location).map fun row =>
              row.annual_probability * (location_exposure total_exposure location *
                eai_damage_ratio row.flood_intensity_m)).sum
          exposure_usd := location_exposure total_exposure location
          eai_ratio :=
            ((hazard_data.filter fun r => r.location == location).map fun row =>
              row.annual_probability * (location_exposure total_exposure location *
                eai_damage_ratio row.flood_intensity_m)).sum /
              location_exposure total_exposure location
          return_period_impacts :=
            (hazard_data.filter fun r => r.location == location).map fun row =>
              { return_period := row.return_period
                probability := row.annual_probability
                flood_intensity_m := row.flood_intensity_m
                damage_ratio := eai_damage_ratio row.flood_intensity_m
                impact_usd := location_exposure total_exposure location *
                  eai_damage_ratio row.flood_intensity_m } }) := by
  simp only [calculate_expected_annual_impact]
  rw [if_neg (by simpa using hne), if_neg hexp, foldl_add_map_sum]

/-- Witness for C1, end-to-end scenario C: one hazard row with probability
`0.01` and intensity `0.9` m (damage ratio `0.3`) against an exposure of
`10^9` gives EAI `3,000,000` and `eai_ratio = 0.003`, with the breakdown
row preserved. -/
theorem calculate_expected_annual_impact_spec_witness :
    ([⟨"Malaysia (Country)", 100, 9 / 10, 1 / 100⟩] : List HazardRow).filter
      (fun r => r.location == "Malaysia (Country)") ≠ [] ∧
    location_exposure 1000000000 "Malaysia (Country)" ≠ 0 ∧
    calculate_expected_annual_impact [⟨"Malaysia (Country)", 100, 9 / 10, 1 / 100⟩]
      1000000000 "Malaysia (Country)" =
      .ok (some ⟨"Malaysia (Country)", 3000000, 1000000000, 3 / 1000,
        [⟨100, 1 / 100, 9 / 10, 3 / 10, 300000000⟩]⟩) := by
  refine ⟨by decide, by decide, ?_⟩
  rw [calculate_expected_annual_impact_spec
    [⟨"Malaysia (Country)", 100, 9 / 10, 1 / 100⟩] 1000000000 "Malaysia (Country)"
    (by decide) (by decide)]
  simp [location_exposure, state_exposure_ratio, eai_damage_ratio, min_def]
  norm_num

/-- Claim C6, counterexample: With a loaded exposure total of `-1` (resolved
location exposure `-1 ≤ 0`), the EAI calculation **succeeds** and returns a
result record — no `ZeroExposureError` (or any typed exposure check) exists in
the source. -/
theorem negative_exposure_no_zero_exposure_error :
    location_exposure (-1) "Malaysia (Country)" ≤ 0 ∧
    calculate_expected_annual_impact [⟨"Malaysia (Country)", 100, 9 / 10, 1 / 100⟩]
      (-1) "Malaysia (Country)" =
      .ok (some ⟨"Malaysia (Country)", -(3 / 1000), -1, 3 / 1000,
        [⟨100, 1 / 100, 9 / 10, 3 / 10, -(3 / 10)⟩]⟩) := by
  refine ⟨by decide, ?_⟩
  simp [calculate_expected_annual_impact, location_exposure, state_exposure_ratio,
    eai_damage_ratio, min_def]
  norm_num

/-- Claim C6, amended: The source performs no exposure-sign check: when the
resolved exposure is `0` the unguarded float division raises an **untyped**
`ZeroDivisionError`; in every successful case (any nonzero exposure,
including negative ones) the returned `eai_ratio` equals the EAI divided by
the resolved exposure value. -/
theorem eai_ratio_unguarded_division (hazard_data : List HazardRow)
    (total_exposure : ℚ) (location : String)
    (hne : hazard_data.filter (fun r => r.location == location) ≠ []) :
    (location_exposure total_exposure location = 0 →
      calculate_expected_annual_impact hazard_data total_exposure location =
        .error .zeroDivisionError) ∧
    (∀ res : EAIResult,
      calculate_expected_annual_impact hazard_data total_exposure location =
        .ok (some res) →
      res.exposure_usd = location_exposure total_exposure location ∧
      res.eai_ratio = res.expected_annual_impact_usd / res.exposure_usd) := by
  constructor
  · intro h0
    simp only [calculate_expected_annual_impact]
    rw [if_neg (by simpa using hne), if_pos h0]
  · intro res h
    by_cases hexp : location_exposure total_exposure location = 0
    · exfalso
      simp only [calculate_expected_annual_impact] at h
      rw [if_neg (by simpa using hne), if_pos hexp] at h
      exact Except.noConfusion h
    · simp only [calculate_expected_annual_impact] at h
      rw [if_neg (by simpa using hne), if_neg hexp] at h
      simp only [Except.ok.injEq, Option.some.injEq] at h
      subst h
      exact ⟨rfl, rfl⟩

/-- Witness for the amended C6: a zero exposure total raises the untyped
division error, and at exposure `10^9` the successful result's `eai_ratio`
is its EAI over its exposure. -/
theorem eai_ratio_unguarded_division_witness :
    ([⟨"Malaysia (Country)", 100, 9 / 10, 1 / 100⟩] : List HazardRow).filter
      (fun r => r.location == "Malaysia (Country)") ≠ [] ∧
    calculate_expected_annual_impact [⟨"Malaysia (Country)", 100, 9 / 10, 1 / 100⟩]
      0 "Malaysia (Country)" = .error .zeroDivisionError ∧
    ((⟨"Malaysia (Country)", 3000000, 1000000000, 3 / 1000,
        [⟨100, 1 / 100, 9 / 10, 3 / 10, 300000000⟩]⟩ : EAIResult).exposure_usd =
      location_exposure 1000000000 "Malaysia (Country)" ∧
    (⟨"Malaysia (Country)", 3000000, 1000000000, 3 / 1000,
        [⟨100, 1 / 100, 9 / 10, 3 / 10, 300000000⟩]⟩ : EAIResult).eai_ratio =
      (3000000 : ℚ) / 1000000000) :=
  ⟨by decide,
    (eai_ratio_unguarded_division [⟨"Malaysia (Country)", 100, 9 / 10, 1 / 100⟩]
      0 "Malaysia (Country)" (by decide)).1 (by decide),
    (eai_ratio_unguarded_division [⟨"Malaysia (Country)", 100, 9 / 10, 1 / 100⟩]
      1000000000 "Malaysia (Country)" (by decide)).2
      ⟨"Malaysia (Country)", 3000000, 1000000000, 3 / 1000,
        [⟨100, 1 / 100, 9 / 10, 3 / 10, 300000000⟩]⟩
      (by simp [calculate_expected_annual_impact, location_exposure,
          state_exposure_ratio, eai_damage_ratio, min_def]
          norm_num)⟩

/-! ## Claim C2 — GEV return levels -/

/-- Claim C2: Every row of `calculate_return_levels` has magnitude equal to the
GEV quantile (`ppf`) at non-exceedance probability `1 - 1/T`, confidence
bounds exactly `0.8` and `1.2` times the point estimate, and
`annual_probability = 1/T` exactly; when the requested return periods are
positive and sorted strictly ascending, the produced probabilities are
strictly decreasing and the rows keep the requested order. -/
theorem calculate_return_levels_spec (ppf : GEVParams → ℚ → ℚ)
    (gev_params : GEVParams) (return_periods : List ℕ)
    (hpos : ∀ rp ∈ return_periods, 0 < rp)
    (hsorted : return_periods.Sorted (· < ·)) :
    (∀ row ∈ calculate_return_levels ppf gev_params return_periods,
      row.return_level = ppf gev_params (1 - 1 / (row.return_period : ℚ)) ∧
      row.ci_lower = row.return_level * (8 / 10) ∧
      row.ci_upper = row.return_level * (12 / 10) ∧
      row.annual_probability = 1 / (row.return_period : ℚ)) ∧
    ((calculate_return_levels ppf gev_params return_periods).map
      (fun row => row.annual_probability)).Sorted (· > ·) ∧
    (calculate_return_levels ppf gev_params return_periods).map
      (fun row => row.return_period) = return_periods := by
  refine ⟨?_, ?_, ?_⟩
  · intro row hrow
    unfold calculate_return_levels at hrow
    obtain ⟨rp, hrp, rfl⟩ := List.mem_map.mp hrow
    exact ⟨rfl, rfl, rfl, rfl⟩
  · unfold calculate_return_levels
    rw [List.Sorted, List.pairwise_map, List.pairwise_map]
    refine hsorted.imp_of_mem ?_
    intro a b ha hb hab
    exact one_div_lt_one_div_of_lt (by exact_mod_cast hpos a ha) (by exact_mod_cast hab)
  · clear hpos hsorted
    unfold calculate_return_levels
    induction return_periods with
    | nil => rfl
    | cons a l ih => simpa using ih

/-- Witness for C2 with the identity quantile and periods `[10, 100]`. -/
theorem calculate_return_levels_spec_witness :
    ((calculate_return_levels (fun _ p => p) ⟨0, 0, 1⟩ [10, 100]).map
      (fun row => row.annual_probability)).Sorted (· > ·) ∧
    (calculate_return_levels (fun _ p => p) ⟨0, 0, 1⟩ [10, 100]).map
      (fun row => row.return_period) = [10, 100] :=
  ⟨(calculate_return_levels_spec (fun _ p => p) ⟨0, 0, 1⟩ [10, 100]
      (by decide) (by decide)).2.1,
    (calculate_return_levels_spec (fun _ p => p) ⟨0, 0, 1⟩ [10, 100]
      (by decide) (by decide)).2.2⟩

/-! ## Claim C5 — minimum sample count for GEV fitting -/

/-- Claim C5, counterexample: Nine positive flood events: the return-period
calculation emits a warning and returns the plain **empty table** — the
"untyped empty result" the claim rules out — rather than raising a typed
`InsufficientDataError` (no such class exists anywhere in the source; the
ISIMIP `fit_gev_distribution` applies no minimum-count check at all). -/
theorem nine_events_empty_return_table :
    calculate_return_period_from_data (fun _ => ⟨0, 0, 1⟩) (fun _ p => p)
      [1, 1, 1, 1, 1, 1, 1, 1, 1] = [] := by
  rfl

/-- Claim C5, amended: With fewer than 10 strictly positive events the
calculation warns and returns the empty (untyped) table; with 10 or more it
fits the GEV on the sorted positive events and returns the fixed nine-row
table with `magnitude = ppf(1 - 1/T)` and `annual_probability = 1/T`. -/
theorem calculate_return_period_from_data_spec (fit : List ℚ → GEVParams)
    (ppf : GEVParams → ℚ → ℚ) (flood_events : List ℚ) :
    ((flood_events.filter fun x => 0 < x).length < 10 →
      calculate_return_period_from_data fit ppf flood_events = []) ∧
    (10 ≤ (flood_events.filter fun x => 0 < x).length →
      calculate_return_period_from_data fit ppf flood_events =
        ([2, 5, 10, 25, 50, 100, 250, 500, 1000] : List ℕ).map fun rp =>
          { return_period_years := rp
            flood_magnitude :=
              ppf (fit ((flood_events.filter fun x => 0 < x).insertionSort (· ≥ ·)))
                (1 - 1 / (rp : ℚ))
            annual_probability := 1 / (rp : ℚ) }) := by
  constructor
  · intro h
    unfold calculate_return_period_from_data
    rw [if_pos]
    rwa [List.length_insertionSort]
  · intro h
    unfold calculate_return_period_from_data
    rw [if_neg]
    rw [List.length_insertionSort]
    omega

/-- Witness for the amended C5: three samples give the empty table, ten give
the nine fixed return-period rows. -/
theorem calculate_return_period_from_data_spec_witness :
    calculate_return_period_from_data (fun _ => ⟨0, 0, 1⟩) (fun _ p => p)
      [5, 5, 5] = [] ∧
    calculate_return_period_from_data (fun _ => ⟨0, 0, 1⟩) (fun _ p => p)
      [2, 2, 2, 2, 2, 2, 2, 2, 2, 2] =
      ([2, 5, 10, 25, 50, 100, 250, 500, 1000] : List ℕ).map fun rp =>
        ⟨rp, 1 - 1 / (rp : ℚ), 1 / (rp : ℚ)⟩ :=
  ⟨(calculate_return_period_from_data_spec (fun _ => ⟨0, 0, 1⟩) (fun _ p => p)
      [5, 5, 5]).1 (by decide),
    (calculate_return_period_from_data_spec (fun _ => ⟨0, 0, 1⟩) (fun _ p => p)
      [2, 2, 2, 2, 2, 2, 2, 2, 2, 2]).2 (by decide)⟩

/-! ## Claim C7 — climate-scenario scaling of the simulated hazard curve -/

/-- Claim C7, counterexample: The simulated intensity is floored at `0.1` m
*after* the scenario multiplier is applied, so a row whose pre-floor intensity
is non-positive (here: return period 10, random draw `-0.5`, country level)
gets intensity `0.1` under both `historical` and `rcp85`, and
`0.1 ≠ 1.5 × 0.1`. -/
theorem rcp85_not_always_1_5x_historical :
    flood_intensity_m (fun _ => 1) (-(1 / 2)) "Malaysia (Country)" "country" "rcp85" 10 ≠
      (3 / 2) * flood_intensity_m (fun _ => 1) (-(1 / 2)) "Malaysia (Country)" "country"
        "historical" 10 := by
  simp [flood_intensity_m, state_risk_multiplier, scenario_factor, max_def]
  norm_num

/-- Claim C7, amended: Whenever the location-adjusted pre-floor intensity of
the historical row is at least the `0.1` m floor, the same row (same random
draw) under `rcp85` is exactly `1.5` times the historical intensity. -/
theorem rcp85_scales_historical_above_floor (log10 : ℕ → ℚ) (noise : ℚ)
    (location loc_type : String) (rp : ℕ)
    (h : 1 / 10 ≤ (log10 rp * (1 / 2) + noise) *
      state_risk_multiplier location loc_type) :
    flood_intensity_m log10 noise location loc_type "rcp85" rp =
      (3 / 2) * flood_intensity_m log10 noise location loc_type "historical" rp := by
  have heval : ∀ s : String, flood_intensity_m log10 noise location loc_type s rp =
      max (1 / 10) ((log10 rp * (1 / 2) + noise) *
        state_risk_multiplier location loc_type * scenario_factor s) := fun s => rfl
  rw [heval, heval]
  have hhist : scenario_factor "historical" = 1 := rfl
  have hrcp : scenario_factor "rcp85" = 3 / 2 := rfl
  rw [hhist, hrcp, mul_one]
  set x := (log10 rp * (1 / 2) + noise) * state_risk_multiplier location loc_type with hx
  rw [max_eq_right h, max_eq_right (by linarith : (1 : ℚ) / 10 ≤ x * (3 / 2))]
  ring

/-- Witness for the amended C7: return period 10 (`log10 = 1`), zero random
draw, country level — historical intensity `0.425`, rcp85 intensity
`0.6375 = 1.5 × 0.425`. -/
theorem rcp85_scales_historical_above_floor_witness :
    1 / 10 ≤ (((fun _ : ℕ => (1 : ℚ)) 10) * (1 / 2) + 0) *
      state_risk_multiplier "Malaysia (Country)" "country" ∧
    flood_intensity_m (fun _ => 1) 0 "Malaysia (Country)" "country" "rcp85" 10 =
      (3 / 2) * flood_intensity_m (fun _ => 1) 0 "Malaysia (Country)" "country"
        "historical" 10 :=
  ⟨by norm_num [state_risk_multiplier],
    rcp85_scales_historical_above_floor (fun _ => 1) 0 "Malaysia (Country)" "country" 10
      (by norm_num [state_risk_multiplier])⟩
